import Mathlib

/-!
Shallow embedding of the task-execution core of xxl-job-executor-go
(src/executor.go).

Pointer-valued Go maps are modelled with an explicit heap: `Task` values
live in `heap` (a list indexed by allocation order), and the two
registries of executor.go:42-43 (`regList`, `runList`) store heap
references, so the aliasing of the Go code is preserved: runTask
(executor.go:111) fetches the task object out of regList by pointer and
stores that same pointer into runList, so both maps can hold the very
same object.

Cancellation functions are modelled by allocation numbers: `nextCancel`
is the next fresh handle, the `context.CancelFunc` created at
executor.go:113 or 115 receives the current number, and calling
`Cancel()` on a task appends the handle currently stored in the task to
`cancelled`.  Handle 0 stands for the nil zero value of a fresh Task and
is never allocated.
-/

namespace XXL

/-- Run request body read by runTask, wire fields of the /run endpoint
(spec section 6).  The struct itself lives in dto.go, which is not under
src/; the fields are the ones executor.go reads. -/
structure RunReq where
  jobID : Int
  executorHandler : String
  executorParams : String
  executorTimeout : Int
  executorBlockStrategy : String
  deriving Repr, DecidableEq

/-- Kill request body (wire fields of the /kill endpoint, spec section 6). -/
structure KillReq where
  jobID : Int
  deriving Repr, DecidableEq

/-- Log request body (wire envelope of the /log endpoint, spec section 6).
Its content is never inspected by the core. -/
structure LogReq where
  logID : Int
  deriving Repr, DecidableEq

/-- Cancellation context attached to a task (executor.go:112-116): a
positive ExecutorTimeout yields a context that auto-cancels after that
many seconds (context.WithTimeout), otherwise a context cancelled only
by an explicit call of its cancel function (context.WithCancel).
`unset` is the nil zero value of a freshly allocated Task. -/
inductive Ctx where
  | unset
  | timeout (seconds : Int)
  | manual
  deriving Repr, DecidableEq

/-- Task object (task.go, declared outside src/; the fields are exactly
the ones executor.go assigns at lines 86-87 and 110-119).  `fn` is the
identity of the registered handler function; `cancel` is the allocation
number of the context.CancelFunc currently stored in the Cancel field,
0 meaning nil. -/
structure Task where
  fn : Nat
  id : Int
  name : String
  param : RunReq
  ext : Ctx
  cancel : Nat
  deriving Repr, DecidableEq

/-- Zero value of Task with a given handler function, as allocated by
RegTask (executor.go:86). -/
def zeroTask (fnId : Nat) : Task :=
  { fn := fnId, id := 0, name := "",
    param := { jobID := 0, executorHandler := "", executorParams := "",
               executorTimeout := 0, executorBlockStrategy := "" },
    ext := Ctx.unset, cancel := 0 }

/-- Modelled from the spec: taskList.Get (task_list.go is not under
src/); spec section 4.2 specifies map lookup returning the instance or
absent. -/
def tlGet (m : List (String × Nat)) (k : String) : Option Nat :=
  (m.find? (fun p => p.1 == k)).map (fun p => p.2)

/-- Modelled from the spec: taskList.Set, a map upsert (spec section 4.2,
idempotent upsert / admit). -/
def tlSet (m : List (String × Nat)) (k : String) (v : Nat) : List (String × Nat) :=
  (k, v) :: m.filter (fun p => !(p.1 == k))

/-- Modelled from the spec: taskList.Del, map removal (spec section 4.2). -/
def tlDel (m : List (String × Nat)) (k : String) : List (String × Nat) :=
  m.filter (fun p => !(p.1 == k))

/-- Modelled from the spec: taskList.Exists, map membership (spec
section 4.2). -/
def tlExists (m : List (String × Nat)) (k : String) : Bool :=
  (tlGet m k).isSome

/-- Dereference a heap reference.  References are only ever produced by
allocation (RegTask), and the heap never shrinks, so the default is
never hit on reachable states. -/
def heapGet (h : List Task) (r : Nat) : Task :=
  h.getD r (zeroTask 0)

/-- Write through a heap reference (mutation of a Go *Task). -/
def heapSet (h : List Task) (r : Nat) (t : Task) : List Task :=
  h.set r t

/-- Modelled from the spec: Int64ToStr (util.go is not under src/)
renders the int64 job identity as its decimal string, the key of the
run registry. -/
def Int64ToStr (i : Int) : String :=
  toString i

/-- Modelled from the spec: the COVER_EARLY blocking-strategy constant
(constants file not under src/); spec section 4.3 calls it the
override-on-conflict policy value, compared against the
executorBlockStrategy field at executor.go:123. -/
def coverEarly : String :=
  "COVER_EARLY"

/-- Response envelope {code, msg} of spec section 6. -/
structure Res where
  code : Int
  msg : String
  deriving Repr, DecidableEq

/-- Modelled from the spec: returnCall (dto.go is not under src/) builds
the section 6 response envelope from the code and message passed by
executor.go; the request argument of the Go function only feeds fields
outside the envelope core. -/
def returnCall (code : Int) (msg : String) : Res :=
  { code := code, msg := msg }

/-- Modelled from the spec: returnGeneral (dto.go), the 200 success
envelope. -/
def returnGeneral : Res :=
  { code := 200, msg := "" }

/-- Modelled from the spec: returnKill (dto.go); section 7 specifies
code 500 with a not-running message for a kill of a job that is not
running. -/
def returnKill (code : Int) : Res :=
  { code := code, msg := if code == 200 then "" else "not running" }

/-- Modelled from the spec: returnLog (dto.go), the log-response
envelope carrying the given code. -/
def returnLog (code : Int) : Res :=
  { code := code, msg := "" }

/-- Whole-executor state: the two registries (executor.go:42-43), the
heap of Task objects, the cancel-handle allocator and the trace of
invoked cancel handles. -/
structure ExecState where
  regList : List (String × Nat)
  runList : List (String × Nat)
  heap : List Task
  nextCancel : Nat
  cancelled : List Nat
  deriving Repr, DecidableEq

/-- Initial state after executor.Init (executor.go:47-56): both
registries empty. -/
def initState : ExecState :=
  { regList := [], runList := [], heap := [], nextCancel := 1, cancelled := [] }

/-- RegTask (executor.go:85-90): allocate a fresh Task holding the
handler function and upsert it into regList under the pattern. -/
def RegTask (s : ExecState) (pattern : String) (fnId : Nat) : ExecState :=
  { s with heap := s.heap ++ [zeroTask fnId],
           regList := tlSet s.regList pattern s.heap.length }

/-- Lines 110-119 of executor.go: build the context from the timeout
field, allocate the cancel function, and overwrite the Ext, Cancel, Id,
Name and Param fields of the Task object obtained from regList.  This
mutates the shared object in place. -/
def assignTask (s : ExecState) (ref : Nat) (param : RunReq) : ExecState :=
  { s with
    heap := heapSet s.heap ref
      { heapGet s.heap ref with
          ext := if param.executorTimeout > 0 then Ctx.timeout param.executorTimeout
                 else Ctx.manual,
          cancel := s.nextCancel,
          id := param.jobID,
          name := param.executorHandler,
          param := param },
    nextCancel := s.nextCancel + 1 }

/-- Calling task.Cancel(): invoke the cancel function currently stored
in the Cancel field of the referenced task (executor.go:126, 157). -/
def cancelTask (s : ExecState) (ref : Nat) : ExecState :=
  { s with cancelled := s.cancelled ++ [(heapGet s.heap ref).cancel] }

/-- runList.Del under a key (executor.go:127, 158). -/
def delRun (s : ExecState) (key : String) : ExecState :=
  { s with runList := tlDel s.runList key }

/-- Line 136-141 of executor.go: admit the task reference into runList
under the decimal job identity and answer returnGeneral; the handler
goroutine launch itself carries no further registry effect. -/
def admitRun (s : ExecState) (ref : Nat) (param : RunReq) : ExecState × Res :=
  ({ s with runList := tlSet s.runList (Int64ToStr param.jobID) ref }, returnGeneral)

/-- runTask (executor.go:93-142).  `body` is none when json.Unmarshal
fails on the request body.  The Exists check of line 105 and the Get of
line 111 run under the same lock and are merged into a single lookup;
the nil test on oldTask at line 125 is the match on the runList lookup. -/
def runTask (s : ExecState) (body : Option RunReq) : ExecState × Res :=
  match body with
  | none => (s, returnCall 500 "params err")
  | some param =>
    match tlGet s.regList param.executorHandler with
    | none => (s, returnCall 500 "Task not registered")
    | some ref =>
      let s1 := assignTask s ref param
      let key := Int64ToStr param.jobID
      if tlExists s1.runList key then
        if param.executorBlockStrategy == coverEarly then
          match tlGet s1.runList key with
          | some oldRef => admitRun (delRun (cancelTask s1 oldRef) key) ref param
          | none => admitRun s1 ref param
        else
          (s1, returnCall 500 "There are tasks running")
      else
        admitRun s1 ref param

/-- killTask (executor.go:145-160).  The json.Unmarshal error is
discarded at line 150, so an unparseable body leaves param at its zero
value, job identity 0.  Exists (line 151) and Get (line 156) run under
the same lock and are merged into one lookup. -/
def killTask (s : ExecState) (body : Option KillReq) : ExecState × Res :=
  let param := body.getD { jobID := 0 }
  match tlGet s.runList (Int64ToStr param.jobID) with
  | none => (s, returnKill 500)
  | some ref =>
      (delRun (cancelTask s ref) (Int64ToStr param.jobID), returnGeneral)

/-- taskLog (executor.go:163-168).  The json.Unmarshal error is
discarded at line 166 and the handler answers returnLog with code 200
unconditionally, touching no registry. -/
def taskLog (s : ExecState) (_body : Option LogReq) : ExecState × Res :=
  (s, returnLog 200)

/-- callback (executor.go:238-246).  `postOk` abstracts whether the
outbound POST to /api/callback succeeded; `false` means e.post returned
a non-nil error together with a nil response.  In that case the error is
logged (line 241) and then line 243 reads res.Body from the nil
response: a nil-pointer dereference, modelled as `none` (goroutine
panic); the runList.Del of line 244 is not reached.  On success the
entry under the decimal rendering of the Id currently stored in the
task object is removed. -/
def callback (s : ExecState) (ref : Nat) (_code : Int) (_msg : String)
    (postOk : Bool) : Option ExecState :=
  if postOk then
    some (delRun s (Int64ToStr (heapGet s.heap ref).id))
  else
    none

/-! Concrete states used by the witnesses and counterexamples. -/

/-- Executor with one registered handler, pattern "h", function 7. -/
def sDemo1 : ExecState :=
  RegTask initState "h" 7

/-- Run request for job 1 on handler "h" under the serial (discard)
strategy, no timeout. -/
def reqA : RunReq :=
  { jobID := 1, executorHandler := "h", executorParams := "a",
    executorTimeout := 0, executorBlockStrategy := "SERIAL_EXECUTION" }

/-- Second run request for job 1 on handler "h" under the override
strategy. -/
def reqB : RunReq :=
  { reqA with executorParams := "b", executorBlockStrategy := coverEarly }

/-- Second run request for job 1 on handler "h" with an empty
blocking-strategy field. -/
def reqC : RunReq :=
  { reqA with executorParams := "c", executorBlockStrategy := "" }

/-- Run request for job 0 on handler "h". -/
def reqZero : RunReq :=
  { reqA with jobID := 0 }

/-- Run request for job 2 on handler "h" with a 30 second timeout. -/
def reqT : RunReq :=
  { reqA with jobID := 2, executorTimeout := 30 }

/-- Run request for the unregistered handler "ghost". -/
def reqGhost : RunReq :=
  { reqA with executorHandler := "ghost" }

/-- State after admitting reqA: job 1 running through heap reference 0,
cancel handle 1. -/
def sDemo2 : ExecState :=
  (runTask sDemo1 (some reqA)).1

/-- State after admitting reqZero: job 0 running. -/
def sDemo0 : ExecState :=
  (runTask sDemo1 (some reqZero)).1

/-! Registry and heap lemmas. -/

theorem tlGet_tlSet_self (m : List (String × Nat)) (k : String) (v : Nat) :
    tlGet (tlSet m k v) k = some v := by
  unfold tlGet tlSet
  rw [List.find?_cons_of_pos]
  · rfl
  · exact beq_self_eq_true k

theorem tlGet_tlDel_self (m : List (String × Nat)) (k : String) :
    tlGet (tlDel m k) k = none := by
  unfold tlGet tlDel
  rw [Option.map_eq_none', List.find?_eq_none]
  intro x hx
  have h2 := (List.mem_filter.mp hx).2
  simp only [Bool.not_eq_true'] at h2
  simp [h2]

theorem heapGet_heapSet_self (h : List Task) (r : Nat) (t : Task)
    (hr : r < h.length) : heapGet (heapSet h r t) r = t := by
  induction h generalizing r with
  | nil => exact absurd hr (Nat.not_lt_zero r)
  | cons a l ih =>
    cases r with
    | zero => rfl
    | succ n => exact ih n (Nat.lt_of_succ_lt_succ hr)

/-- Equation lemma: runTask on a parsed request whose handler is
registered, with the lookup result substituted. -/
theorem runTask_some (s : ExecState) (req : RunReq) (ref : Nat)
    (hreg : tlGet s.regList req.executorHandler = some ref) :
    runTask s (some req) =
      (if tlExists (assignTask s ref req).runList (Int64ToStr req.jobID) then
        if req.executorBlockStrategy == coverEarly then
          match tlGet (assignTask s ref req).runList (Int64ToStr req.jobID) with
          | some oldRef =>
              admitRun (delRun (cancelTask (assignTask s ref req) oldRef)
                (Int64ToStr req.jobID)) ref req
          | none => admitRun (assignTask s ref req) ref req
        else
          (assignTask s ref req, returnCall 500 "There are tasks running")
      else admitRun (assignTask s ref req) ref req) := by
  simp only [runTask]
  rw [hreg]

/-- Frame lemma: whatever branch a registered run request takes, the
resulting heap is the one produced by the field assignment of
executor.go:110-119, the definition-registry mapping is untouched and
exactly one cancel function was allocated. -/
theorem runTask_frame (s : ExecState) (req : RunReq) (ref : Nat)
    (hreg : tlGet s.regList req.executorHandler = some ref) :
    (runTask s (some req)).1.heap = (assignTask s ref req).heap ∧
    (runTask s (some req)).1.regList = s.regList ∧
    (runTask s (some req)).1.nextCancel = s.nextCancel + 1 := by
  rw [runTask_some s req ref hreg]
  by_cases hex : tlExists (assignTask s ref req).runList (Int64ToStr req.jobID) = true
  · rw [if_pos hex]
    by_cases hbs : (req.executorBlockStrategy == coverEarly) = true
    · rw [if_pos hbs]
      cases hold : tlGet (assignTask s ref req).runList (Int64ToStr req.jobID) with
      | none => exact ⟨rfl, rfl, rfl⟩
      | some oldRef => exact ⟨rfl, rfl, rfl⟩
    · rw [if_neg hbs]
      exact ⟨rfl, rfl, rfl⟩
  · rw [if_neg hex]
    exact ⟨rfl, rfl, rfl⟩

/-- Frame lemma: killTask never changes the heap or the
definition-registry mapping. -/
theorem killTask_frame (s : ExecState) (b : Option KillReq) :
    (killTask s b).1.heap = s.heap ∧ (killTask s b).1.regList = s.regList := by
  simp only [killTask]
  cases tlGet s.runList (Int64ToStr (b.getD { jobID := 0 }).jobID) with
  | none => exact ⟨rfl, rfl⟩
  | some r => exact ⟨rfl, rfl⟩

/-! Claim theorems. -/

/-- C8: a well-formed run request whose handler name is not present in
the Task Definition Registry is answered with code 500 and message
"Task not registered", and the executor state, both registries
included, is left entirely unchanged: the early return of
executor.go:105-109 precedes every mutation. -/
theorem C8_unregistered_run_rejected (s : ExecState) (req : RunReq)
    (h : tlGet s.regList req.executorHandler = none) :
    runTask s (some req) = (s, returnCall 500 "Task not registered") := by
  simp only [runTask]
  rw [h]

/-- C8 witness: the run request for the unregistered handler "ghost" on
the demo executor that only registered "h". -/
theorem C8_unregistered_run_rejected_witness :
    runTask sDemo1 (some reqGhost) = (sDemo1, returnCall 500 "Task not registered") :=
  C8_unregistered_run_rejected sDemo1 reqGhost (by decide)

/-- C10: every inbound log request, one with an unparseable body
included, is answered with code 200, and the executor state, both
registries included, is unchanged. -/
theorem C10_log_stateless (s : ExecState) (body : Option LogReq) :
    (taskLog s body).1 = s ∧ (taskLog s body).2.code = 200 :=
  ⟨rfl, rfl⟩

/-- C7: a well-formed kill request for a job identity absent from the
Run Registry is answered 500 (not running) with the whole state
unchanged; for a present identity the cancel function stored in the
instance is invoked, the entry is removed from the Run Registry, and
the response is returnGeneral (code 200), with the definition registry
and the heap untouched. -/
theorem C7_kill_semantics (s : ExecState) (req : KillReq) :
    (tlGet s.runList (Int64ToStr req.jobID) = none →
      killTask s (some req) = (s, returnKill 500)) ∧
    (∀ ref, tlGet s.runList (Int64ToStr req.jobID) = some ref →
      (killTask s (some req)).2 = returnGeneral ∧
      (killTask s (some req)).1.cancelled = s.cancelled ++ [(heapGet s.heap ref).cancel] ∧
      tlGet (killTask s (some req)).1.runList (Int64ToStr req.jobID) = none ∧
      (killTask s (some req)).1.regList = s.regList ∧
      (killTask s (some req)).1.heap = s.heap) := by
  constructor
  · intro h
    simp only [killTask, Option.getD_some]
    rw [h]
  · intro ref h
    simp only [killTask, Option.getD_some]
    rw [h]
    exact ⟨rfl, rfl, tlGet_tlDel_self s.runList (Int64ToStr req.jobID), rfl, rfl⟩

/-- C7 witness: a kill for the never-admitted job 5 on the empty
executor, and a kill for the running job 1 on the demo executor. -/
theorem C7_kill_semantics_witness :
    killTask initState (some { jobID := 5 }) = (initState, returnKill 500) ∧
    ((killTask sDemo2 (some { jobID := 1 })).2 = returnGeneral ∧
     (killTask sDemo2 (some { jobID := 1 })).1.cancelled =
       sDemo2.cancelled ++ [(heapGet sDemo2.heap 0).cancel] ∧
     tlGet (killTask sDemo2 (some { jobID := 1 })).1.runList
       (Int64ToStr (1 : Int)) = none ∧
     (killTask sDemo2 (some { jobID := 1 })).1.regList = sDemo2.regList ∧
     (killTask sDemo2 (some { jobID := 1 })).1.heap = sDemo2.heap) :=
  ⟨(C7_kill_semantics initState { jobID := 5 }).1 (by decide),
   (C7_kill_semantics sDemo2 { jobID := 1 }).2 0 (by decide)⟩

/-- C9: for an admitted run request, the context stored into the
launched task object is the auto-cancelling timeout context when the
timeout field is strictly positive and the explicit-signal-only manual
context otherwise (executor.go:112-116). -/
theorem C9_timeout_derives_context (s : ExecState) (req : RunReq) (ref : Nat)
    (hreg : tlGet s.regList req.executorHandler = some ref)
    (hlt : ref < s.heap.length)
    (_hresp : (runTask s (some req)).2 = returnGeneral) :
    (heapGet (runTask s (some req)).1.heap ref).ext =
      (if req.executorTimeout > 0 then Ctx.timeout req.executorTimeout
       else Ctx.manual) := by
  obtain ⟨hh, -, -⟩ := runTask_frame s req ref hreg
  have h2 : heapGet (assignTask s ref req).heap ref =
      { heapGet s.heap ref with
          ext := if req.executorTimeout > 0 then Ctx.timeout req.executorTimeout
                 else Ctx.manual,
          cancel := s.nextCancel, id := req.jobID, name := req.executorHandler,
          param := req } :=
    heapGet_heapSet_self s.heap ref _ hlt
  rw [hh, h2]

/-- C9 witness: the run request with a 30 second timeout on the demo
executor is admitted and carries the timeout context. -/
theorem C9_timeout_derives_context_witness :
    (heapGet (runTask sDemo1 (some reqT)).1.heap 0).ext =
      (if reqT.executorTimeout > 0 then Ctx.timeout reqT.executorTimeout
       else Ctx.manual) :=
  C9_timeout_derives_context sDemo1 reqT 0 (by decide) (by decide) (by decide)

/-- C4: for an admitted run request, the Run Registry stores under the
decimal job identity the very heap reference held by the Task
Definition Registry under the handler name (executor.go:111 and 136
store the same pointer), and that shared object now carries the new job
identity, invocation parameters and the freshly allocated cancel
handle, which is what every earlier Run Registry entry referencing the
same object observes from now on. -/
theorem C4_run_entry_aliases_definition (s : ExecState) (req : RunReq) (ref : Nat)
    (hreg : tlGet s.regList req.executorHandler = some ref)
    (hlt : ref < s.heap.length)
    (hresp : (runTask s (some req)).2 = returnGeneral) :
    tlGet (runTask s (some req)).1.runList (Int64ToStr req.jobID) = some ref ∧
    heapGet (runTask s (some req)).1.heap ref =
      { heapGet s.heap ref with
          ext := if req.executorTimeout > 0 then Ctx.timeout req.executorTimeout
                 else Ctx.manual,
          cancel := s.nextCancel, id := req.jobID, name := req.executorHandler,
          param := req } := by
  constructor
  · rw [runTask_some s req ref hreg] at hresp ⊢
    by_cases hex : tlExists (assignTask s ref req).runList (Int64ToStr req.jobID) = true
    · rw [if_pos hex] at hresp ⊢
      by_cases hbs : (req.executorBlockStrategy == coverEarly) = true
      · rw [if_pos hbs] at hresp ⊢
        cases hold : tlGet (assignTask s ref req).runList (Int64ToStr req.jobID) with
        | none => exact tlGet_tlSet_self _ _ _
        | some oldRef => exact tlGet_tlSet_self _ _ _
      · rw [if_neg hbs] at hresp
        have hdis : returnCall 500 "There are tasks running" = returnGeneral := hresp
        exact absurd hdis (by decide)
    · rw [if_neg hex] at hresp ⊢
      exact tlGet_tlSet_self _ _ _
  · obtain ⟨hh, -, -⟩ := runTask_frame s req ref hreg
    rw [hh]
    exact heapGet_heapSet_self s.heap ref _ hlt

/-- C4 witness: admitting reqA on the demo executor stores reference 0,
the reference regList holds for "h", and overwrites the shared object. -/
theorem C4_run_entry_aliases_definition_witness :
    tlGet (runTask sDemo1 (some reqA)).1.runList (Int64ToStr reqA.jobID) = some 0 ∧
    heapGet (runTask sDemo1 (some reqA)).1.heap 0 =
      { heapGet sDemo1.heap 0 with
          ext := if reqA.executorTimeout > 0 then Ctx.timeout reqA.executorTimeout
                 else Ctx.manual,
          cancel := sDemo1.nextCancel, id := reqA.jobID,
          name := reqA.executorHandler, param := reqA } :=
  C4_run_entry_aliases_definition sDemo1 reqA 0 (by decide) (by decide) (by decide)

/-- C3 counterexample: the claim states that no run request modifies
any field of any Task Definition Registry entry, yet admitting reqA
overwrites the id, name, param, context and cancel fields of the entry
registered under "h" in place: before the run the entry (heap reference
0, unchanged in the mapping) still has its zero values, afterwards it
carries job identity 1 and the request itself. -/
theorem C3_counterexample_run_mutates_definition :
    tlGet sDemo1.regList "h" = some 0 ∧
    tlGet sDemo2.regList "h" = some 0 ∧
    (heapGet sDemo1.heap 0).id = 0 ∧
    (heapGet sDemo2.heap 0).id = 1 ∧
    (heapGet sDemo2.heap 0).param = reqA := by
  decide

/-- C3 amended: kill and log requests leave the Task Definition
Registry fully untouched (mapping and stored objects), and a run
request never changes the regList mapping nor the registered handler
function of any entry; but a run request for a registered handler
overwrites the id, name, param, context and cancel fields of that
entry in place, because runTask admits the registry object itself. -/
theorem C3_definition_mutability (s : ExecState) (req : RunReq) (ref : Nat)
    (bk : Option KillReq) (bl : Option LogReq)
    (hreg : tlGet s.regList req.executorHandler = some ref)
    (hlt : ref < s.heap.length) :
    (runTask s (some req)).1.regList = s.regList ∧
    (heapGet (runTask s (some req)).1.heap ref).fn = (heapGet s.heap ref).fn ∧
    (heapGet (runTask s (some req)).1.heap ref).id = req.jobID ∧
    (heapGet (runTask s (some req)).1.heap ref).param = req ∧
    (killTask s bk).1.heap = s.heap ∧
    (killTask s bk).1.regList = s.regList ∧
    (taskLog s bl).1 = s := by
  obtain ⟨hh, hr, -⟩ := runTask_frame s req ref hreg
  have h2 : heapGet (assignTask s ref req).heap ref =
      { heapGet s.heap ref with
          ext := if req.executorTimeout > 0 then Ctx.timeout req.executorTimeout
                 else Ctx.manual,
          cancel := s.nextCancel, id := req.jobID, name := req.executorHandler,
          param := req } :=
    heapGet_heapSet_self s.heap ref _ hlt
  obtain ⟨hk1, hk2⟩ := killTask_frame s bk
  refine ⟨hr, ?_, ?_, ?_, hk1, hk2, rfl⟩
  · rw [hh, h2]
  · rw [hh, h2]
  · rw [hh, h2]

/-- C3 witness: the amended statement at the demo executor and reqA. -/
theorem C3_definition_mutability_witness :
    (runTask sDemo1 (some reqA)).1.regList = sDemo1.regList ∧
    (heapGet (runTask sDemo1 (some reqA)).1.heap 0).fn = (heapGet sDemo1.heap 0).fn ∧
    (heapGet (runTask sDemo1 (some reqA)).1.heap 0).id = reqA.jobID ∧
    (heapGet (runTask sDemo1 (some reqA)).1.heap 0).param = reqA ∧
    (killTask sDemo1 none).1.heap = sDemo1.heap ∧
    (killTask sDemo1 none).1.regList = sDemo1.regList ∧
    (taskLog sDemo1 none).1 = sDemo1 :=
  C3_definition_mutability sDemo1 reqA 0 none none (by decide) (by decide)

/-- C5 counterexample: the run request reqC arrives while job 1 is
running and carries the empty blocking-strategy string; it is rejected
with "There are tasks running", yet the claimed absence of registry
mutation fails: the Task Definition Registry still maps "h" to
reference 0 and the fields of that stored entry have been overwritten
with the data of the rejected request before the rejection. -/
theorem C5_counterexample_reject_still_mutates :
    (runTask sDemo2 (some reqC)).2 = returnCall 500 "There are tasks running" ∧
    tlGet sDemo2.regList "h" = some 0 ∧
    tlGet (runTask sDemo2 (some reqC)).1.regList "h" = some 0 ∧
    (heapGet sDemo2.heap 0).param = reqA ∧
    (heapGet (runTask sDemo2 (some reqC)).1.heap 0).param = reqC ∧
    reqA ≠ reqC := by
  decide

/-- C5 amended: with the job identity already in the Run Registry and a
blocking-strategy field different from the override value, the request
is rejected with code 500, message "There are tasks running", the
run-registry mapping, definition-registry mapping and the trace of
invoked cancel handles are all unchanged (no handle of the existing
instance is invoked); but the fields of the task object registered
under the handler name, an object the running instance may share, have
already been overwritten with the data of the rejected request. -/
theorem C5_discard_rejects_after_mutation (s : ExecState) (req : RunReq) (ref : Nat)
    (hreg : tlGet s.regList req.executorHandler = some ref)
    (hlt : ref < s.heap.length)
    (hex : tlExists s.runList (Int64ToStr req.jobID) = true)
    (hbs : req.executorBlockStrategy ≠ coverEarly) :
    (runTask s (some req)).2 = returnCall 500 "There are tasks running" ∧
    (runTask s (some req)).1.runList = s.runList ∧
    (runTask s (some req)).1.regList = s.regList ∧
    (runTask s (some req)).1.cancelled = s.cancelled ∧
    heapGet (runTask s (some req)).1.heap ref =
      { heapGet s.heap ref with
          ext := if req.executorTimeout > 0 then Ctx.timeout req.executorTimeout
                 else Ctx.manual,
          cancel := s.nextCancel, id := req.jobID, name := req.executorHandler,
          param := req } := by
  have hbsb : (req.executorBlockStrategy == coverEarly) = false :=
    beq_eq_false_iff_ne.mpr hbs
  have hex' : tlExists (assignTask s ref req).runList (Int64ToStr req.jobID) = true := hex
  have hrun : runTask s (some req) =
      (assignTask s ref req, returnCall 500 "There are tasks running") := by
    rw [runTask_some s req ref hreg, if_pos hex', if_neg (by simp [hbsb])]
  rw [hrun]
  exact ⟨rfl, rfl, rfl, rfl, heapGet_heapSet_self s.heap ref _ hlt⟩

/-- C5 witness: the amended statement at the demo executor with job 1
running and the rejected request reqC. -/
theorem C5_discard_rejects_after_mutation_witness :
    (runTask sDemo2 (some reqC)).2 = returnCall 500 "There are tasks running" ∧
    (runTask sDemo2 (some reqC)).1.runList = sDemo2.runList ∧
    (runTask sDemo2 (some reqC)).1.regList = sDemo2.regList ∧
    (runTask sDemo2 (some reqC)).1.cancelled = sDemo2.cancelled ∧
    heapGet (runTask sDemo2 (some reqC)).1.heap 0 =
      { heapGet sDemo2.heap 0 with
          ext := if reqC.executorTimeout > 0 then Ctx.timeout reqC.executorTimeout
                 else Ctx.manual,
          cancel := sDemo2.nextCancel, id := reqC.jobID,
          name := reqC.executorHandler, param := reqC } :=
  C5_discard_rejects_after_mutation sDemo2 reqC 0
    (by decide) (by decide) (by decide) (by decide)

/-- C6 counterexample: the claim states every entry point answers an
unparseable body with code 500 and a parse-error message without
mutation; the log endpoint answers code 200, and a kill request with an
unparseable body is processed as a kill of job identity 0, so with job
0 running it invokes a cancellation handle and removes the entry. -/
theorem C6_counterexample_log_and_kill :
    (taskLog initState none).2.code = 200 ∧
    tlGet sDemo0.runList "0" = some 0 ∧
    (killTask sDemo0 none).1.cancelled = [1] ∧
    (killTask sDemo0 none).1.runList = [] := by
  decide

/-- C6 amended: only the run endpoint rejects an unparseable body with
code 500 and the parse-error message "params err", mutating nothing;
the kill endpoint discards the parse failure and handles the request
exactly as a well-formed kill of the zero-value job identity 0; the log
endpoint discards the parse failure and answers code 200 with no
mutation. -/
theorem C6_parse_failure_behavior (s : ExecState) :
    runTask s none = (s, returnCall 500 "params err") ∧
    killTask s none = killTask s (some { jobID := 0 }) ∧
    taskLog s none = (s, returnLog 200) :=
  ⟨rfl, rfl, rfl⟩

/-- C2: demonstration at the failing input.  Job 1 is admitted through
handler "h" and receives cancel handle 1.  A second run request for job
1 on the same handler with the override strategy first overwrites the
shared task object with a fresh context and cancel handle 2
(executor.go:110-119) and only then reads the old instance out of the
Run Registry (line 124): since both registries hold the same object,
the override invokes handle 2, the handle of the new instance, and
handle 1, the handle created when the earlier instance was admitted, is
never invoked; the new admission then runs under an already-cancelled
context. -/
theorem C2_override_cancels_fresh_handle :
    (heapGet sDemo2.heap 0).cancel = 1 ∧
    (runTask sDemo2 (some reqB)).1.cancelled = [2] ∧
    (runTask sDemo2 (some reqB)).2 = returnGeneral ∧
    tlGet (runTask sDemo2 (some reqB)).1.runList "1" = some 0 ∧
    (heapGet (runTask sDemo2 (some reqB)).1.heap 0).cancel = 2 := by
  decide

/-- C1: demonstration at the failing input.  Job 1 is admitted; when
the completion callback path runs and the outbound delivery to the
scheduler fails, executor.go:241 logs the error and line 243 then reads
res.Body from the nil response, a nil-pointer dereference (modelled as
none): the runList.Del of line 244 is never reached and the instance
stays in the Run Registry.  Only a successful delivery removes the
entry. -/
theorem C1_failed_callback_skips_removal :
    tlGet sDemo2.runList "1" = some 0 ∧
    callback sDemo2 0 200 "ok" false = none ∧
    (callback sDemo2 0 200 "ok" true).map (fun s => tlGet s.runList "1") =
      some none := by
  decide

end XXL
